import Mathlib

/-!
Verification of the phone-tracking orchestrator
(`src/services/tracking.py`, `src/main.py`, `src/models/schemas.py`).

The orchestrator `PhoneTracker` is translated method by method. Its three
external collaborators — the `phonenumbers` library (structural parse,
validity check, region description, carrier name), the OpenCage geocoding
client, and the folium map renderer — are out of scope of the repository
and are modelled as an abstract environment `PhoneEnv` (the behaviour of the
library calls) and an explicit filesystem state `FS` (one association entry
per saved map file, most recent write first).  Coordinates are only carried
through the pipeline, never computed with, so the embedding is polymorphic
in the coordinate type `α`.

Python `ValueError`s raised by the pipeline carry distinguishable message
strings; they are modelled by the constructors of `TrackError`, and
`TrackError.message` recovers the exact message text of each raise site.
The geocoding queries issued during a run are recorded in `geocode_log`,
so that "the geocoder was never invoked" is the statement `geocode_log = []`.
-/

namespace PhoneTracking

/-- Structured decomposition of a phone number, as produced by
`phonenumbers.parse`: the fields `country_code` and `national_number`
that `track` reads (tracking.py line 182). -/
structure ParsedPhoneNumber where
  country_code : Nat
  national_number : Nat
deriving DecidableEq, Repr

/-- One entry of the list returned by the OpenCage client's `geocode`
call: the `geometry` latitude/longitude that `geocode_location` reads
(tracking.py lines 109-110). -/
structure GeoResult (α : Type) where
  lat : α
  lng : α
deriving DecidableEq, Repr

/-- Behaviour of the external collaborators, out of scope of the
repository (spec §1): `phonenumbers.parse` (which may raise a
`NumberParseException`, modelled as `Except.error` with the exception's
message), `phonenumbers.is_valid_number`,
`geocoder.description_for_number(·, "en")` (may return the empty string),
`carrier.name_for_number(·, "en")` (may return the empty string), and the
OpenCage client's `geocode` (may raise, modelled as `Except.error`). -/
structure PhoneEnv (α : Type) where
  parse : String → Except String ParsedPhoneNumber
  is_valid_number : ParsedPhoneNumber → Bool
  description_for_number : ParsedPhoneNumber → String
  name_for_number : ParsedPhoneNumber → String
  geocode : String → Except String (List (GeoResult α))

/-- The `ValueError`s raised by the pipeline, one constructor per raise
site (tracking.py lines 48, 51, 67, 104, 107). -/
inductive TrackError where
  | invalidFormat (msg : String)
  | invalidNumber
  | regionUnknown
  | geocodeFailure (msg : String)
  | locationNotFound (location : String)
deriving DecidableEq, Repr

/-- The exact message string each raise site attaches to its `ValueError`. -/
def TrackError.message : TrackError → String
  | .invalidFormat msg => "Invalid phone number format: " ++ msg
  | .invalidNumber => "Invalid phone number"
  | .regionUnknown => "Could not determine location for this phone number"
  | .geocodeFailure msg => "Geocoding failed: " ++ msg
  | .locationNotFound location => "Could not find coordinates for location: " ++ location

/-- A folium marker as built in `create_map` (tracking.py lines 137-142):
coordinates, popup text, tooltip text and icon settings. -/
structure Marker (α : Type) where
  location : α × α
  popup : String
  tooltip : String
  icon_color : String
  icon_icon : String
deriving DecidableEq, Repr

/-- A rendered folium map document as built in `create_map`
(tracking.py lines 131-142): center, zoom, tile layer and markers. -/
structure MapDoc (α : Type) where
  location : α × α
  zoom_start : Nat
  tiles : String
  markers : List (Marker α)
deriving DecidableEq, Repr

/-- The maps directory on disk: path ↦ saved document, most recent
write first (so `lookup` sees the last writer). -/
def FS (α : Type) : Type := List (String × MapDoc α)

instance {α : Type} [DecidableEq α] : DecidableEq (FS α) :=
  inferInstanceAs (DecidableEq (List (String × MapDoc α)))

/-- `map_obj.save(map_file)`: (over)write the file at `path`. -/
def FS.save {α : Type} (fs : FS α) (path : String) (doc : MapDoc α) : FS α :=
  (path, doc) :: fs

/-- `os.path.exists` / file retrieval: the most recently written document
at `path`, if any. -/
def FS.read {α : Type} (fs : FS α) (path : String) : Option (MapDoc α) :=
  (List.lookup path fs)

/-- The orchestrator's fields, set in `PhoneTracker.__init__`
(tracking.py lines 28-29): the constructed OpenCage client (represented
by the API key it was built from) and the maps directory path. -/
structure PhoneTracker where
  geocoder_instance : String
  maps_dir : String
deriving DecidableEq, Repr

/-- `PhoneTracker.__init__` (tracking.py lines 25-30): rejects an empty
API key with a `ValueError`, otherwise constructs the geocoding client
and fixes `maps_dir = "maps"`. -/
def PhoneTracker.init (opencage_api_key : String) : Except String PhoneTracker :=
  if opencage_api_key = "" then
    .error "OPENCAGE_API_KEY is required"
  else
    .ok { geocoder_instance := opencage_api_key, maps_dir := "maps" }

/-- Python's `str.strip()` (no arguments): remove leading and trailing
whitespace characters. -/
def strip (s : String) : String :=
  String.mk ((s.data.dropWhile Char.isWhitespace).reverse.dropWhile Char.isWhitespace).reverse

/-- `PhoneTracker.parse_and_validate` (tracking.py lines 45-53): strip the
input, parse it with `phonenumbers.parse(·, None)`; a `NumberParseException`
becomes a `ValueError` "Invalid phone number format: ...", and a structurally
parsed but numbering-plan-invalid number becomes "Invalid phone number". -/
def parse_and_validate {α : Type} (env : PhoneEnv α) (phone_number : String) :
    Except TrackError ParsedPhoneNumber :=
  match env.parse (strip phone_number) with
  | .error e => .error (.invalidFormat e)
  | .ok parsed =>
    if env.is_valid_number parsed then .ok parsed
    else .error .invalidNumber

/-- `PhoneTracker.get_location` (tracking.py lines 55-72): the region
description for the number; an empty description raises
"Could not determine location for this phone number". -/
def get_location {α : Type} (env : PhoneEnv α) (parsed_number : ParsedPhoneNumber) :
    Except TrackError String :=
  let location := env.description_for_number parsed_number
  if location = "" then .error .regionUnknown
  else .ok location

/-- `PhoneTracker.get_service_provider` (tracking.py lines 74-86): the
carrier name for the number, with the literal fallback "Unknown" when the
lookup returns an empty (falsy) name. -/
def get_service_provider {α : Type} (env : PhoneEnv α) (parsed_number : ParsedPhoneNumber) :
    String :=
  let provider := env.name_for_number parsed_number
  if provider = "" then "Unknown" else provider

/-- `PhoneTracker.geocode_location` (tracking.py lines 88-112): submit the
location string to the OpenCage client; a raised exception becomes
"Geocoding failed: ...", an empty result list becomes "Could not find
coordinates for location: ...", otherwise the first entry's latitude and
longitude are returned.  The second component records the geocoding
queries issued by this call (exactly one). -/
def geocode_location {α : Type} (env : PhoneEnv α) (location : String) :
    Except TrackError (α × α) × List String :=
  (match env.geocode location with
   | .error e => .error (.geocodeFailure e)
   | .ok results =>
     match results with
     | [] => .error (.locationNotFound location)
     | r :: _ => .ok (r.lat, r.lng),
   [location])

/-- `PhoneTracker.create_map` (tracking.py lines 114-147): build the map
file path `{maps_dir}/map_{map_id}.html` (via `os.path.join`), render a
folium map centered at the coordinates with `zoom_start=9` and
OpenStreetMap tiles, add the single marker (popup = location, tooltip =
"Phone: {phone_number}", blue info-sign icon), save it, and return the
path. -/
def create_map {α : Type} (t : PhoneTracker) (fs : FS α) (lat lng : α)
    (location phone_number map_id : String) : String × FS α :=
  let map_file := t.maps_dir ++ "/map_" ++ map_id ++ ".html"
  let map_obj : MapDoc α :=
    { location := (lat, lng)
      zoom_start := 9
      tiles := "OpenStreetMap"
      markers :=
        [{ location := (lat, lng)
           popup := location
           tooltip := "Phone: " ++ phone_number
           icon_color := "blue"
           icon_icon := "info-sign" }] }
  (map_file, fs.save map_file map_obj)

/-- The dictionary returned by `PhoneTracker.track` on success
(tracking.py lines 185-193). -/
structure TrackResult (α : Type) where
  phone_number : String
  location : String
  service_provider : String
  latitude : α
  longitude : α
  map_id : String
  map_file : String
deriving DecidableEq, Repr

/-- Everything one call to `track` produces: its return value or raised
`ValueError`, the orchestrator object after the call (Python methods could
mutate `self`; the translation records its final state), the maps
directory after the call, and the list of geocoding queries issued. -/
structure TrackOutcome (α : Type) where
  result : Except TrackError (TrackResult α)
  tracker : PhoneTracker
  fs : FS α
  geocode_log : List String

/-- `PhoneTracker.track` (tracking.py lines 149-193): the five-step
pipeline — parse-and-validate, region description, carrier, geocode,
create map — each failure propagating immediately, with
`map_id = "{country_code}_{national_number}"` of the parsed number. -/
def track {α : Type} (t : PhoneTracker) (env : PhoneEnv α) (fs : FS α)
    (phone_number : String) : TrackOutcome α :=
  match parse_and_validate env phone_number with
  | .error e => { result := .error e, tracker := t, fs := fs, geocode_log := [] }
  | .ok parsed_number =>
    match get_location env parsed_number with
    | .error e => { result := .error e, tracker := t, fs := fs, geocode_log := [] }
    | .ok location =>
      let service_provider := get_service_provider env parsed_number
      match geocode_location env location with
      | (.error e, log) => { result := .error e, tracker := t, fs := fs, geocode_log := log }
      | (.ok (lat, lng), log) =>
        let map_id := toString parsed_number.country_code ++ "_"
          ++ toString parsed_number.national_number
        let (map_file, fs2) := create_map t fs lat lng location phone_number map_id
        { result := .ok
            { phone_number := phone_number
              location := location
              service_provider := service_provider
              latitude := lat
              longitude := lng
              map_id := map_id
              map_file := map_file }
          tracker := t
          fs := fs2
          geocode_log := log }

/-! ### The serving layer (`src/main.py`, `src/models/schemas.py`)

The module-level `tracker` global ("Tracker instance will be initialized
in main.py", config.py line 29; the initialization block itself is not in
the sources) is modelled as an `Option PhoneTracker` parameter: `none` is
the orchestrator never having been constructed.  An endpoint's outcome is
either a response body or an `HTTPException` modelled as a status code
paired with its `detail` string. -/

/-- `TrackingResponse` (schemas.py lines 6-12). -/
structure TrackingResponse (α : Type) where
  phone_number : String
  location : String
  service_provider : String
  latitude : α
  longitude : α
  map_url : String
deriving DecidableEq, Repr

/-- `str()` of a starlette `HTTPException`, as interpolated by the
generic handler in main.py line 56: "{status_code}: {detail}". -/
def httpExceptionStr (status : Nat) (detail : String) : String :=
  toString status ++ ": " ++ detail

/-- `POST /track` (main.py lines 18-56).  With no tracker, the
`HTTPException(500, "Tracking service unavailable")` raised inside the
`try` block is caught by the generic `except Exception` clause (it is not
a `ValueError`, and this handler has no `except HTTPException` clause)
and re-raised as a 500 whose detail wraps the original exception's
string.  A `ValueError` from the pipeline becomes a 400 carrying the
error's message.  On success the response echoes the result fields with
`map_url = "/map/{map_id}"`. -/
def track_phone_number {α : Type} (tracker : Option PhoneTracker) (env : PhoneEnv α)
    (fs : FS α) (phone_number : String) :
    Except (Nat × String) (TrackingResponse α) × FS α :=
  match tracker with
  | none =>
    (.error (500, "Internal server error: "
      ++ httpExceptionStr 500 "Tracking service unavailable"), fs)
  | some t =>
    let o := track t env fs phone_number
    match o.result with
    | .error e => (.error (400, e.message), o.fs)
    | .ok result =>
      (.ok { phone_number := result.phone_number
             location := result.location
             service_provider := result.service_provider
             latitude := result.latitude
             longitude := result.longitude
             map_url := "/map/" ++ result.map_id }, o.fs)

/-- `GET /map/{map_id}` (main.py lines 58-84): look for
`maps/map_{map_id}.html`; 404 if absent, otherwise the file is served.
The handler does not consult the tracker at all. -/
def get_map {α : Type} (fs : FS α) (map_id : String) :
    Except (Nat × String) (MapDoc α) :=
  let map_file := "maps/map_" ++ map_id ++ ".html"
  match fs.read map_file with
  | none => .error (404, "Map not found")
  | some doc => .ok doc

/-- The body returned by `GET /health` (main.py lines 86-98). -/
structure HealthResponse where
  status : String
  service : String
  tracking_service : String
deriving DecidableEq, Repr

/-- `GET /health` (main.py lines 86-98): always a 200 whose `status`
field is the literal "healthy"; only the `tracking_service` field
reflects whether the tracker exists. -/
def health_check (tracker : Option PhoneTracker) : HealthResponse :=
  { status := "healthy"
    service := "Phone Tracker API"
    tracking_service := if tracker.isSome then "available" else "unavailable" }

/-! ### Concrete fixtures used by witnesses and counterexamples -/

/-- A concrete collaborator environment: the single number
"+12025550143" parses to country code 1 / national number 2025550143,
every parsed number is numbering-plan valid, the region description is
"Washington, D.C.", the carrier lookup returns the empty string, and
geocoding returns one match at (38, -77). -/
def testEnv : PhoneEnv Int :=
  { parse := fun s =>
      if s = "+12025550143" then .ok { country_code := 1, national_number := 2025550143 }
      else .error "(0) Missing or invalid default region."
    is_valid_number := fun _ => true
    description_for_number := fun _ => "Washington, D.C."
    name_for_number := fun _ => ""
    geocode := fun _ => .ok [{ lat := 38, lng := -77 }] }

/-- `testEnv` with a geocoding call that raises. -/
def testEnvGeoRaise : PhoneEnv Int :=
  { testEnv with geocode := fun _ => .error "HTTP 402 quota exceeded" }

/-- `testEnv` with a geocoding call that returns zero matches. -/
def testEnvGeoEmpty : PhoneEnv Int :=
  { testEnv with geocode := fun _ => .ok [] }

/-- `testEnv` where the parsed number is numbering-plan invalid. -/
def testEnvInvalid : PhoneEnv Int :=
  { testEnv with is_valid_number := fun _ => false }

/-- A concrete orchestrator, as built by `PhoneTracker.__init__`. -/
def testTracker : PhoneTracker :=
  { geocoder_instance := "test-key", maps_dir := "maps" }

/-- A concrete saved map document. -/
def testDoc : MapDoc Int :=
  { location := (38, -77), zoom_start := 9, tiles := "OpenStreetMap", markers := [] }

/-- A maps directory already holding the artifact for id "1_2025550143". -/
def testFs : FS Int := [("maps/map_1_2025550143.html", testDoc)]

/-- The dictionary `track` returns under `testEnv` for "+12025550143". -/
def testResult : TrackResult Int :=
  { phone_number := "+12025550143"
    location := "Washington, D.C."
    service_provider := "Unknown"
    latitude := 38
    longitude := -77
    map_id := "1_2025550143"
    map_file := "maps/map_1_2025550143.html" }

/-- The dictionary `track` returns under `testEnv` for the same number
padded with whitespace: only the echoed raw input differs. -/
def testResultPadded : TrackResult Int :=
  { testResult with phone_number := "  +12025550143 " }

/-! ### Branch characterizations of `track`

One lemma per outcome of the five-step pipeline, each fully determined
by the collaborator oracles.  All claim proofs case on the oracles and
rewrite with these. -/

/-- If `phonenumbers.parse` raises on the trimmed input, `track` raises
the "Invalid phone number format" `ValueError`, leaves the maps directory
untouched and issues no geocoding query. -/
theorem track_parse_error {α : Type} (t : PhoneTracker) (env : PhoneEnv α) (fs : FS α)
    (s m : String) (hp : env.parse (strip s) = .error m) :
    track t env fs s =
      { result := .error (.invalidFormat m), tracker := t, fs := fs, geocode_log := [] } := by
  simp [track, parse_and_validate, hp]

/-- If the number parses but fails the validity check, `track` raises
"Invalid phone number", leaves the maps directory untouched and issues
no geocoding query. -/
theorem track_invalid_number {α : Type} (t : PhoneTracker) (env : PhoneEnv α) (fs : FS α)
    (s : String) (p : ParsedPhoneNumber)
    (hp : env.parse (strip s) = .ok p) (hv : env.is_valid_number p = false) :
    track t env fs s =
      { result := .error .invalidNumber, tracker := t, fs := fs, geocode_log := [] } := by
  simp [track, parse_and_validate, hp, hv]

/-- If the region description is empty, `track` raises the
"Could not determine location" `ValueError` before any geocoding. -/
theorem track_region_unknown {α : Type} (t : PhoneTracker) (env : PhoneEnv α) (fs : FS α)
    (s : String) (p : ParsedPhoneNumber)
    (hp : env.parse (strip s) = .ok p) (hv : env.is_valid_number p = true)
    (hd : env.description_for_number p = "") :
    track t env fs s =
      { result := .error .regionUnknown, tracker := t, fs := fs, geocode_log := [] } := by
  simp [track, parse_and_validate, get_location, hp, hv, hd]

/-- If the geocoding call raises, `track` raises "Geocoding failed",
leaving the maps directory untouched, after exactly one geocoding query. -/
theorem track_geocode_error {α : Type} (t : PhoneTracker) (env : PhoneEnv α) (fs : FS α)
    (s : String) (p : ParsedPhoneNumber) (m : String)
    (hp : env.parse (strip s) = .ok p) (hv : env.is_valid_number p = true)
    (hd : ¬ env.description_for_number p = "")
    (hg : env.geocode (env.description_for_number p) = .error m) :
    track t env fs s =
      { result := .error (.geocodeFailure m), tracker := t, fs := fs,
        geocode_log := [env.description_for_number p] } := by
  simp [track, parse_and_validate, get_location, geocode_location, hp, hv, hd, hg]

/-- If the geocoding call returns zero matches, `track` raises
"Could not find coordinates", leaving the maps directory untouched. -/
theorem track_geocode_empty {α : Type} (t : PhoneTracker) (env : PhoneEnv α) (fs : FS α)
    (s : String) (p : ParsedPhoneNumber)
    (hp : env.parse (strip s) = .ok p) (hv : env.is_valid_number p = true)
    (hd : ¬ env.description_for_number p = "")
    (hg : env.geocode (env.description_for_number p) = .ok []) :
    track t env fs s =
      { result := .error (.locationNotFound (env.description_for_number p)), tracker := t,
        fs := fs, geocode_log := [env.description_for_number p] } := by
  simp [track, parse_and_validate, get_location, geocode_location, hp, hv, hd, hg]

/-- When every step succeeds, `track` returns the full result dictionary
and saves exactly one freshly rendered map document. -/
theorem track_success {α : Type} (t : PhoneTracker) (env : PhoneEnv α) (fs : FS α)
    (s : String) (p : ParsedPhoneNumber) (g : GeoResult α) (rest : List (GeoResult α))
    (hp : env.parse (strip s) = .ok p) (hv : env.is_valid_number p = true)
    (hd : ¬ env.description_for_number p = "")
    (hg : env.geocode (env.description_for_number p) = .ok (g :: rest)) :
    track t env fs s =
      { result := .ok
          { phone_number := s
            location := env.description_for_number p
            service_provider := get_service_provider env p
            latitude := g.lat
            longitude := g.lng
            map_id := toString p.country_code ++ "_" ++ toString p.national_number
            map_file := t.maps_dir ++ "/map_"
              ++ (toString p.country_code ++ "_" ++ toString p.national_number) ++ ".html" }
        tracker := t
        fs := fs.save
          (t.maps_dir ++ "/map_"
            ++ (toString p.country_code ++ "_" ++ toString p.national_number) ++ ".html")
          { location := (g.lat, g.lng)
            zoom_start := 9
            tiles := "OpenStreetMap"
            markers :=
              [{ location := (g.lat, g.lng)
                 popup := env.description_for_number p
                 tooltip := "Phone: " ++ s
                 icon_color := "blue"
                 icon_icon := "info-sign" }] }
        geocode_log := [env.description_for_number p] } := by
  simp [track, parse_and_validate, get_location, geocode_location, create_map, hp, hv, hd, hg]

/-- The value and error of `track` depend only on the input string and
the collaborator oracles, never on the prior contents of the maps
directory. -/
theorem track_result_ignores_fs {α : Type} (t : PhoneTracker) (env : PhoneEnv α)
    (fs1 fs2 : FS α) (s : String) :
    (track t env fs1 s).result = (track t env fs2 s).result := by
  cases hp : env.parse (strip s) with
  | error m => rw [track_parse_error t env fs1 s m hp, track_parse_error t env fs2 s m hp]
  | ok p =>
    cases hv : env.is_valid_number p with
    | false =>
      rw [track_invalid_number t env fs1 s p hp hv, track_invalid_number t env fs2 s p hp hv]
    | true =>
      by_cases hd : env.description_for_number p = ""
      · rw [track_region_unknown t env fs1 s p hp hv hd,
          track_region_unknown t env fs2 s p hp hv hd]
      · cases hg : env.geocode (env.description_for_number p) with
        | error m =>
          rw [track_geocode_error t env fs1 s p m hp hv hd hg,
            track_geocode_error t env fs2 s p m hp hv hd hg]
        | ok results =>
          cases results with
          | nil =>
            rw [track_geocode_empty t env fs1 s p hp hv hd hg,
              track_geocode_empty t env fs2 s p hp hv hd hg]
          | cons g rest =>
            rw [track_success t env fs1 s p g rest hp hv hd hg,
              track_success t env fs2 s p g rest hp hv hd hg]

/-- C2: for every input whose (trimmed) parse raises, `track` fails with
the InvalidFormat error and the geocoding collaborator is never invoked
(the run's geocode-call log is empty). -/
theorem C2_parse_failure_skips_geocoder {α : Type} (t : PhoneTracker) (env : PhoneEnv α)
    (fs : FS α) (s m : String) (hp : env.parse (strip s) = .error m) :
    (track t env fs s).result = .error (.invalidFormat m) ∧
    (track t env fs s).geocode_log = [] := by
  rw [track_parse_error t env fs s m hp]
  exact ⟨rfl, rfl⟩

theorem C2_parse_failure_skips_geocoder_witness :
    (track testTracker testEnv testFs "not-a-number").result
      = .error (.invalidFormat "(0) Missing or invalid default region.") ∧
    (track testTracker testEnv testFs "not-a-number").geocode_log = [] :=
  C2_parse_failure_skips_geocoder testTracker testEnv testFs "not-a-number"
    "(0) Missing or invalid default region." (by rfl)

/-- C4: complete case analysis of `geocode_location` — a raised geocoding
call yields GeocodeFailure, zero matches yield LocationNotFound (and the
two failure kinds are distinguishable), and one or more matches yield
exactly the first entry's latitude and longitude, whatever the rest. -/
theorem C4_geocode_cases {α : Type} (env : PhoneEnv α) (loc : String) :
    (∀ m, env.geocode loc = .error m →
      (geocode_location env loc).1 = .error (.geocodeFailure m)) ∧
    (env.geocode loc = .ok [] →
      (geocode_location env loc).1 = .error (.locationNotFound loc)) ∧
    (∀ (g : GeoResult α) (rest : List (GeoResult α)), env.geocode loc = .ok (g :: rest) →
      (geocode_location env loc).1 = .ok (g.lat, g.lng)) ∧
    (∀ m, TrackError.geocodeFailure m ≠ TrackError.locationNotFound loc) := by
  refine ⟨?_, ?_, ?_, ?_⟩
  · intro m hm; simp [geocode_location, hm]
  · intro hm; simp [geocode_location, hm]
  · intro g rest hm; simp [geocode_location, hm]
  · intro m hm; exact TrackError.noConfusion hm

theorem C4_geocode_cases_witness :
    (geocode_location testEnvGeoRaise "Washington, D.C.").1
      = .error (.geocodeFailure "HTTP 402 quota exceeded") ∧
    (geocode_location testEnvGeoEmpty "Washington, D.C.").1
      = .error (.locationNotFound "Washington, D.C.") ∧
    (geocode_location testEnv "Washington, D.C.").1 = .ok (38, -77) :=
  ⟨(C4_geocode_cases testEnvGeoRaise "Washington, D.C.").1 _ (by rfl),
   (C4_geocode_cases testEnvGeoEmpty "Washington, D.C.").2.1 (by rfl),
   (C4_geocode_cases testEnv "Washington, D.C.").2.2.1
     { lat := 38, lng := -77 } [] (by rfl)⟩

/-- C5: whenever any of the pipeline steps before the persist step
fails, `track` raises and the maps directory is exactly what it was —
no map file is created or overwritten. -/
theorem C5_failure_leaves_fs_unchanged {α : Type} (t : PhoneTracker) (env : PhoneEnv α)
    (fs : FS α) (s : String) (e : TrackError)
    (h : (track t env fs s).result = .error e) :
    (track t env fs s).fs = fs := by
  cases hp : env.parse (strip s) with
  | error m => rw [track_parse_error t env fs s m hp]
  | ok p =>
    cases hv : env.is_valid_number p with
    | false => rw [track_invalid_number t env fs s p hp hv]
    | true =>
      by_cases hd : env.description_for_number p = ""
      · rw [track_region_unknown t env fs s p hp hv hd]
      · cases hg : env.geocode (env.description_for_number p) with
        | error m => rw [track_geocode_error t env fs s p m hp hv hd hg]
        | ok results =>
          cases results with
          | nil => rw [track_geocode_empty t env fs s p hp hv hd hg]
          | cons g rest =>
            rw [track_success t env fs s p g rest hp hv hd hg] at h
            simp at h

theorem C5_failure_leaves_fs_unchanged_witness :
    (track testTracker testEnvGeoEmpty testFs "+12025550143").fs = testFs :=
  C5_failure_leaves_fs_unchanged testTracker testEnvGeoEmpty testFs "+12025550143"
    (.locationNotFound "Washington, D.C.") (by rfl)

/-- C6: the carrier-derivation step is total and never yields an empty
provider; when the numbering-plan lookup returns no carrier name the
provider — and the `service_provider` field of any successful `track`
result — is exactly the literal "Unknown". -/
theorem C6_unknown_carrier_fallback {α : Type} (env : PhoneEnv α) (p : ParsedPhoneNumber) :
    (env.name_for_number p = "" → get_service_provider env p = "Unknown") ∧
    get_service_provider env p ≠ "" ∧
    (∀ (t : PhoneTracker) (fs : FS α) (s : String) (r : TrackResult α),
      (∀ q, env.name_for_number q = "") →
      (track t env fs s).result = .ok r → r.service_provider = "Unknown") := by
  refine ⟨?_, ?_, ?_⟩
  · intro h; simp [get_service_provider, h]
  · by_cases h : env.name_for_number p = ""
    · simp [get_service_provider, h]
    · simp [get_service_provider, h]
  · intro t fs s r hall h
    cases hp : env.parse (strip s) with
    | error m => rw [track_parse_error t env fs s m hp] at h; simp at h
    | ok q =>
      cases hv : env.is_valid_number q with
      | false => rw [track_invalid_number t env fs s q hp hv] at h; simp at h
      | true =>
        by_cases hd : env.description_for_number q = ""
        · rw [track_region_unknown t env fs s q hp hv hd] at h; simp at h
        · cases hg : env.geocode (env.description_for_number q) with
          | error m => rw [track_geocode_error t env fs s q m hp hv hd hg] at h; simp at h
          | ok results =>
            cases results with
            | nil => rw [track_geocode_empty t env fs s q hp hv hd hg] at h; simp at h
            | cons g rest =>
              rw [track_success t env fs s q g rest hp hv hd hg] at h
              simp only [Except.ok.injEq] at h
              subst h
              simp [get_service_provider, hall q]

theorem C6_unknown_carrier_fallback_witness :
    get_service_provider testEnv { country_code := 1, national_number := 2025550143 }
      = "Unknown" ∧
    testResult.service_provider = "Unknown" :=
  ⟨(C6_unknown_carrier_fallback testEnv
      { country_code := 1, national_number := 2025550143 }).1 (by rfl),
   (C6_unknown_carrier_fallback testEnv
      { country_code := 1, national_number := 2025550143 }).2.2
     testTracker [] "+12025550143" testResult (fun _ => rfl) (by rfl)⟩

/-- C9: `track` leaves the orchestrator object — in particular its only
two fields, the geocoding-client handle and the maps-directory path —
exactly as construction left them. -/
theorem C9_tracker_fields_immutable {α : Type} (t : PhoneTracker) (env : PhoneEnv α)
    (fs : FS α) (s : String) :
    (track t env fs s).tracker = t ∧
    (track t env fs s).tracker.geocoder_instance = t.geocoder_instance ∧
    (track t env fs s).tracker.maps_dir = t.maps_dir := by
  have h : (track t env fs s).tracker = t := by
    cases hp : env.parse (strip s) with
    | error m => rw [track_parse_error t env fs s m hp]
    | ok p =>
      cases hv : env.is_valid_number p with
      | false => rw [track_invalid_number t env fs s p hp hv]
      | true =>
        by_cases hd : env.description_for_number p = ""
        · rw [track_region_unknown t env fs s p hp hv hd]
        · cases hg : env.geocode (env.description_for_number p) with
          | error m => rw [track_geocode_error t env fs s p m hp hv hd hg]
          | ok results =>
            cases results with
            | nil => rw [track_geocode_empty t env fs s p hp hv hd hg]
            | cons g rest => rw [track_success t env fs s p g rest hp hv hd hg]
  exact ⟨h, by rw [h], by rw [h]⟩

/-- C1: whenever `track` succeeds, the artifact id in the result is
exactly `{country_code}_{national_number}` of the parsed (trimmed) number,
the artifact path is `{maps_dir}/map_{map_id}.html`, the response's
`map_url` is `/map/{map_id}`, and the result — hence id and path — is the
same however often the call is repeated (it does not depend on the maps
directory's prior contents). -/
theorem C1_deterministic_artifact_id {α : Type} (t : PhoneTracker) (env : PhoneEnv α)
    (fs : FS α) (s : String) (r : TrackResult α)
    (h : (track t env fs s).result = .ok r) :
    (∃ p, env.parse (strip s) = .ok p ∧
      r.map_id = toString p.country_code ++ "_" ++ toString p.national_number ∧
      r.map_file = t.maps_dir ++ "/map_" ++ r.map_id ++ ".html") ∧
    (track_phone_number (some t) env fs s).1 = .ok
      { phone_number := r.phone_number
        location := r.location
        service_provider := r.service_provider
        latitude := r.latitude
        longitude := r.longitude
        map_url := "/map/" ++ r.map_id } ∧
    (∀ fs2 : FS α, (track t env fs2 s).result = (track t env fs s).result) := by
  refine ⟨?_, ?_, fun fs2 => track_result_ignores_fs t env fs2 fs s⟩
  · cases hp : env.parse (strip s) with
    | error m => rw [track_parse_error t env fs s m hp] at h; simp at h
    | ok p =>
      cases hv : env.is_valid_number p with
      | false => rw [track_invalid_number t env fs s p hp hv] at h; simp at h
      | true =>
        by_cases hd : env.description_for_number p = ""
        · rw [track_region_unknown t env fs s p hp hv hd] at h; simp at h
        · cases hg : env.geocode (env.description_for_number p) with
          | error m => rw [track_geocode_error t env fs s p m hp hv hd hg] at h; simp at h
          | ok results =>
            cases results with
            | nil => rw [track_geocode_empty t env fs s p hp hv hd hg] at h; simp at h
            | cons g rest =>
              rw [track_success t env fs s p g rest hp hv hd hg] at h
              simp only [Except.ok.injEq] at h
              subst h
              exact ⟨p, rfl, rfl, rfl⟩
  · simp [track_phone_number, h]

theorem C1_deterministic_artifact_id_witness :
    (∃ p, testEnv.parse (strip "+12025550143") = .ok p ∧
      testResult.map_id = toString p.country_code ++ "_" ++ toString p.national_number ∧
      testResult.map_file
        = testTracker.maps_dir ++ "/map_" ++ testResult.map_id ++ ".html") ∧
    (track_phone_number (some testTracker) testEnv [] "+12025550143").1 = .ok
      { phone_number := testResult.phone_number
        location := testResult.location
        service_provider := testResult.service_provider
        latitude := testResult.latitude
        longitude := testResult.longitude
        map_url := "/map/" ++ testResult.map_id } ∧
    (∀ fs2 : FS Int,
      (track testTracker testEnv fs2 "+12025550143").result
        = (track testTracker testEnv [] "+12025550143").result) :=
  C1_deterministic_artifact_id testTracker testEnv [] "+12025550143" testResult (by rfl)

/-- C3: `parse_and_validate` fails with InvalidFormat exactly when the
stripped input cannot be parsed, fails with InvalidNumber exactly when it
parses structurally but fails the numbering-plan validity check, and the
serving layer maps every pipeline `ValueError` — in particular these two —
to a 400 response carrying its message, never to a 500. -/
theorem C3_error_classification {α : Type} (env : PhoneEnv α) (t : PhoneTracker)
    (fs : FS α) (s : String) :
    ((∃ m, parse_and_validate env s = .error (.invalidFormat m)) ↔
      (∃ m, env.parse (strip s) = .error m)) ∧
    ((parse_and_validate env s = .error .invalidNumber) ↔
      (∃ p, env.parse (strip s) = .ok p ∧ env.is_valid_number p = false)) ∧
    (∀ e : TrackError, (track t env fs s).result = .error e →
      (track_phone_number (some t) env fs s).1 = .error (400, e.message) ∧
      ∀ d : String, (track_phone_number (some t) env fs s).1 ≠ .error (500, d)) := by
  have h400 : ∀ e : TrackError, (track t env fs s).result = .error e →
      (track_phone_number (some t) env fs s).1 = .error (400, e.message) := by
    intro e he
    simp [track_phone_number, he]
  refine ⟨?_, ?_, fun e he => ⟨h400 e he, ?_⟩⟩
  · cases hp : env.parse (strip s) with
    | error m => simp [parse_and_validate, hp]
    | ok p =>
      cases hv : env.is_valid_number p with
      | false => simp [parse_and_validate, hp, hv]
      | true => simp [parse_and_validate, hp, hv]
  · cases hp : env.parse (strip s) with
    | error m => simp [parse_and_validate, hp]
    | ok p =>
      cases hv : env.is_valid_number p with
      | false => simp [parse_and_validate, hp, hv]
      | true => simp [parse_and_validate, hp, hv]
  · intro d hd
    rw [h400 e he] at hd
    simp at hd

theorem C3_error_classification_witness :
    (∃ m, parse_and_validate testEnv "not-a-number" = .error (.invalidFormat m)) ∧
    parse_and_validate testEnvInvalid "+12025550143" = .error .invalidNumber ∧
    (track_phone_number (some testTracker) testEnv testFs "not-a-number").1
      = .error (400, "Invalid phone number format: (0) Missing or invalid default region.") :=
  ⟨(C3_error_classification testEnv testTracker testFs "not-a-number").1.mpr
      ⟨"(0) Missing or invalid default region.", by rfl⟩,
   (C3_error_classification testEnvInvalid testTracker testFs "+12025550143").2.1.mpr
      ⟨{ country_code := 1, national_number := 2025550143 }, by rfl, by rfl⟩,
   ((C3_error_classification testEnv testTracker testFs "not-a-number").2.2
      (.invalidFormat "(0) Missing or invalid default region.") (by rfl)).1⟩

/-- C7: every successful run saves, at the result's map path, a document
centered at the geocoded coordinates (the first geocoding match) with the
fixed zoom constant 9 and exactly one marker at those same coordinates,
whose popup is the location description and whose tooltip embeds the raw
phone-number input. -/
theorem C7_map_artifact_contents {α : Type} (t : PhoneTracker) (env : PhoneEnv α)
    (fs : FS α) (s : String) (r : TrackResult α)
    (h : (track t env fs s).result = .ok r) :
    ∃ (g : GeoResult α) (rest : List (GeoResult α)),
      env.geocode r.location = .ok (g :: rest) ∧
      r.latitude = g.lat ∧ r.longitude = g.lng ∧
      ∃ doc : MapDoc α,
        ((track t env fs s).fs).read r.map_file = some doc ∧
        doc.location = (r.latitude, r.longitude) ∧
        doc.zoom_start = 9 ∧
        doc.markers =
          [{ location := (r.latitude, r.longitude)
             popup := r.location
             tooltip := "Phone: " ++ s
             icon_color := "blue"
             icon_icon := "info-sign" }] := by
  cases hp : env.parse (strip s) with
  | error m => rw [track_parse_error t env fs s m hp] at h; simp at h
  | ok p =>
    cases hv : env.is_valid_number p with
    | false => rw [track_invalid_number t env fs s p hp hv] at h; simp at h
    | true =>
      by_cases hd : env.description_for_number p = ""
      · rw [track_region_unknown t env fs s p hp hv hd] at h; simp at h
      · cases hg : env.geocode (env.description_for_number p) with
        | error m => rw [track_geocode_error t env fs s p m hp hv hd hg] at h; simp at h
        | ok results =>
          cases results with
          | nil => rw [track_geocode_empty t env fs s p hp hv hd hg] at h; simp at h
          | cons g rest =>
            rw [track_success t env fs s p g rest hp hv hd hg] at h
            simp only [Except.ok.injEq] at h
            subst h
            refine ⟨g, rest, hg, rfl, rfl, ?_⟩
            rw [track_success t env fs s p g rest hp hv hd hg]
            refine ⟨{ location := (g.lat, g.lng)
                      zoom_start := 9
                      tiles := "OpenStreetMap"
                      markers :=
                        [{ location := (g.lat, g.lng)
                           popup := env.description_for_number p
                           tooltip := "Phone: " ++ s
                           icon_color := "blue"
                           icon_icon := "info-sign" }] }, ?_, rfl, rfl, rfl⟩
            simp [FS.read, FS.save, List.lookup]

theorem C7_map_artifact_contents_witness :
    ∃ (g : GeoResult Int) (rest : List (GeoResult Int)),
      testEnv.geocode testResult.location = .ok (g :: rest) ∧
      testResult.latitude = g.lat ∧ testResult.longitude = g.lng ∧
      ∃ doc : MapDoc Int,
        ((track testTracker testEnv [] "+12025550143").fs).read testResult.map_file
          = some doc ∧
        doc.location = (testResult.latitude, testResult.longitude) ∧
        doc.zoom_start = 9 ∧
        doc.markers =
          [{ location := (testResult.latitude, testResult.longitude)
             popup := testResult.location
             tooltip := "Phone: " ++ "+12025550143"
             icon_color := "blue"
             icon_icon := "info-sign" }] :=
  C7_map_artifact_contents testTracker testEnv [] "+12025550143" testResult (by rfl)

/-- C10: whenever `track` succeeds, the result's `phone_number` field and
the saved marker's tooltip carry the original raw input completely
unmodified (padding included), even though parsing was performed on the
stripped string. -/
theorem C10_raw_input_preserved {α : Type} (t : PhoneTracker) (env : PhoneEnv α)
    (fs : FS α) (s : String) (r : TrackResult α)
    (h : (track t env fs s).result = .ok r) :
    r.phone_number = s ∧
    (∃ p, env.parse (strip s) = .ok p) ∧
    (∃ (doc : MapDoc α) (mk : Marker α),
      ((track t env fs s).fs).read r.map_file = some doc ∧
      doc.markers = [mk] ∧ mk.tooltip = "Phone: " ++ s) := by
  cases hp : env.parse (strip s) with
  | error m => rw [track_parse_error t env fs s m hp] at h; simp at h
  | ok p =>
    cases hv : env.is_valid_number p with
    | false => rw [track_invalid_number t env fs s p hp hv] at h; simp at h
    | true =>
      by_cases hd : env.description_for_number p = ""
      · rw [track_region_unknown t env fs s p hp hv hd] at h; simp at h
      · cases hg : env.geocode (env.description_for_number p) with
        | error m => rw [track_geocode_error t env fs s p m hp hv hd hg] at h; simp at h
        | ok results =>
          cases results with
          | nil => rw [track_geocode_empty t env fs s p hp hv hd hg] at h; simp at h
          | cons g rest =>
            rw [track_success t env fs s p g rest hp hv hd hg] at h
            simp only [Except.ok.injEq] at h
            subst h
            refine ⟨rfl, ⟨p, rfl⟩, ?_⟩
            rw [track_success t env fs s p g rest hp hv hd hg]
            refine ⟨{ location := (g.lat, g.lng)
                      zoom_start := 9
                      tiles := "OpenStreetMap"
                      markers :=
                        [{ location := (g.lat, g.lng)
                           popup := env.description_for_number p
                           tooltip := "Phone: " ++ s
                           icon_color := "blue"
                           icon_icon := "info-sign" }] },
              { location := (g.lat, g.lng)
                popup := env.description_for_number p
                tooltip := "Phone: " ++ s
                icon_color := "blue"
                icon_icon := "info-sign" }, ?_, rfl, rfl⟩
            simp [FS.read, FS.save, List.lookup]

theorem C10_raw_input_preserved_witness :
    testResultPadded.phone_number = "  +12025550143 " ∧
    (∃ p, testEnv.parse (strip "  +12025550143 ") = .ok p) ∧
    (∃ (doc : MapDoc Int) (mk : Marker Int),
      ((track testTracker testEnv [] "  +12025550143 ").fs).read testResultPadded.map_file
        = some doc ∧
      doc.markers = [mk] ∧ mk.tooltip = "Phone: " ++ "  +12025550143 ") :=
  C10_raw_input_preserved testTracker testEnv [] "  +12025550143 " testResultPadded (by rfl)

/-- C8 counterexample: with the orchestrator never constructed, the map
endpoint does not surface a 500 — it serves an existing map unchanged (its
handler never consults the tracker) — and the health endpoint's `status`
field is still the literal "healthy"; moreover the /track 500's detail is
not the fixed message but its wrapping by the generic exception handler. -/
theorem C8_counterexample :
    get_map testFs "1_2025550143" = .ok testDoc ∧
    (health_check none).status = "healthy" ∧
    (track_phone_number none testEnv testFs "+12025550143").1
      = .error (500, "Internal server error: 500: Tracking service unavailable") := by
  refine ⟨?_, rfl, rfl⟩
  simp [get_map, testFs, FS.read, List.lookup]

/-- C8 (amended): with the orchestrator never constructed, the POST /track
endpoint — alone — answers 500, its detail being the fixed message
"Tracking service unavailable" as wrapped by the handler's generic
`except Exception` clause; GET /health still answers with overall status
"healthy" but reports the condition through its `tracking_service` field,
which is "unavailable" exactly when the tracker (the holder of the
geocoding client) is absent and "available" otherwise, while GET /map
serves existing artifacts without consulting the tracker. -/
theorem C8_amended_unavailable_tracker {α : Type} (env : PhoneEnv α) (fs : FS α)
    (s : String) (t : PhoneTracker) :
    track_phone_number (none : Option PhoneTracker) env fs s
      = (.error (500, "Internal server error: 500: Tracking service unavailable"), fs) ∧
    (health_check none).status = "healthy" ∧
    (health_check none).tracking_service = "unavailable" ∧
    (health_check (some t)).status = "healthy" ∧
    (health_check (some t)).tracking_service = "available" := by
  exact ⟨rfl, rfl, rfl, rfl, rfl⟩

end PhoneTracking
